import Mathlib

/-!
Verification of the products CRUD service (`src/index.js`).

The JavaScript source is shallowly embedded: JSON values become the
inductive `JVal`, JS objects become association lists with first-match
lookup (observationally equivalent to JS spread semantics), the Postgres
`products` table becomes a `List Row`, timestamps become `Nat`, and each
Express handler becomes a pure function from the store and the request
data to a response together with the new store.  `crypto.randomUUID()`
and `new Date().toISOString()` are passed in as explicit parameters
(`uuid`, `now`), mirroring that the code computes them once per request.
-/

set_option autoImplicit false

namespace Medicinas

/-- JSON values, as they occur in request bodies and the `detail` jsonb
column.  Objects are association lists; JS object lookup is modelled by
first-match `List.lookup`. -/
inductive JVal where
  | null : JVal
  | bool : Bool → JVal
  | num : Int → JVal
  | str : String → JVal
  | arr : List JVal → JVal
  | obj : List (String × JVal) → JVal

/-- JS truthiness of a JSON value (`undefined` is modelled by `Option`
at the use sites).  `null`, `false`, `0` and `""` are falsy; arrays and
objects are always truthy. -/
def jsTruthy : JVal → Bool
  | JVal.null => false
  | JVal.bool b => b
  | JVal.num n => !(n == 0)
  | JVal.str s => !(s == "")
  | JVal.arr _ => true
  | JVal.obj _ => true

/-- The whitespace characters recognised by the embedding, covering the
ASCII part of JavaScript's whitespace class (used by both `String.trim`
and the regular expression class in `requireAuth`) plus NBSP. -/
def isJsSpace (c : Char) : Bool :=
  c == ' ' || c == '\t' || c == '\n' || c == '\r' || c == '\x0b' || c == '\x0c' || c == ' '

/-- List-level trimming: drop whitespace from both ends. -/
def trimChars (l : List Char) : List Char :=
  ((l.dropWhile isJsSpace).reverse.dropWhile isJsSpace).reverse

/-- JavaScript `String.prototype.trim()`. -/
def jsTrim (s : String) : String :=
  String.mk (trimChars s.data)

/-- JS `a || d` for a possibly-absent string `a`: the string when it is
present and non-empty (truthy), otherwise the default. -/
def jsOrStr (o : Option String) (d : String) : String :=
  match o with
  | some s => if s = "" then d else s
  | none => d

/-- JS `s || null` for an optional string as passed to a SQL parameter:
an empty (falsy) string becomes NULL. -/
def jsOrNull (o : Option String) : Option String :=
  match o with
  | some s => if s = "" then none else some s
  | none => none

/-- Whether `(req.headers["authorization"] || "")` starts with the regular
expression `^Bearer\s+` (case-insensitive `Bearer`, then at least one
whitespace character). -/
def bearerPrefixed (s : String) : Bool :=
  match s.data with
  | c0 :: c1 :: c2 :: c3 :: c4 :: c5 :: c6 :: _ =>
    (c0.toLower == 'b' && c1.toLower == 'e' && c2.toLower == 'a' &&
     c3.toLower == 'r' && c4.toLower == 'e' && c5.toLower == 'r') && isJsSpace c6
  | _ => false

/-- Models `.replace(/^Bearer\s+/i, "")`: when the anchored pattern matches,
remove `Bearer` and the (greedy) run of whitespace after it; otherwise
return the string unchanged. -/
def stripBearer (s : String) : String :=
  if bearerPrefixed s then String.mk ((s.data.drop 6).dropWhile isJsSpace)
  else s

/-- Models `ADMIN_TOKEN = process.env.ADMIN_TOKEN || process.env.API_KEY || "dev-token"`,
with an unset environment variable modelled as the empty (falsy) string. -/
def adminToken (envAdmin envApi : String) : String :=
  if envAdmin ≠ "" then envAdmin else if envApi ≠ "" then envApi else "dev-token"

/-- The token `requireAuth` compares against the secret:
`req.headers["x-api-key"] || (req.headers["authorization"] || "").replace(/^Bearer\s+/i, "")`.
Absent headers are modelled as empty strings, exactly as the code's
`|| ""` coercions make them. -/
def guardToken (xApiKey authorization : String) : String :=
  if xApiKey ≠ "" then xApiKey else stripBearer authorization

/-- The guard `requireAuth` lets the request through iff the token is non-empty
and equal (`===`) to the configured secret. -/
def requireAuthOk (secret xApiKey authorization : String) : Bool :=
  !(guardToken xApiKey authorization == "") && guardToken xApiKey authorization == secret

/-- A partial product payload, as parsed from a JSON request body.
Fields the body does not mention are `none`.  String-typed fields are
restricted to strings, `featured` to a boolean and `detail` to an
object, matching the payloads the service is designed for. -/
structure Payload where
  id : Option String
  name : Option String
  brand : Option String
  category : Option String
  size : Option String
  image : Option String
  alt : Option String
  featured : Option Bool
  detail : Option (List (String × JVal))

/-- A fully merged product record (the output of `upsertProduct`, and
the shape `formatRow` produces).  Optional fields that the merge never
filled are `none` (JS `undefined`). -/
structure Product where
  id : String
  name : Option String
  brand : Option String
  category : Option String
  size : Option String
  image : Option String
  alt : Option String
  featured : Option Bool
  detail : List (String × JVal)
  createdAt : Nat
  updatedAt : Nat

/-- One row of the `products` table (`id` is the primary key;
`name` and `brand` are NOT NULL). -/
structure Row where
  id : String
  name : String
  brand : String
  category : Option String
  size : Option String
  image : Option String
  alt : Option String
  featured : Bool
  detail : List (String × JVal)
  created_at : Nat
  updated_at : Nat

/-- Models `formatRow`: the record shape the API returns for a stored row. -/
def formatRow (r : Row) : Product :=
  { id := r.id
    name := some r.name
    brand := some r.brand
    category := r.category
    size := r.size
    image := r.image
    alt := r.alt
    featured := some r.featured
    detail := r.detail
    createdAt := r.created_at
    updatedAt := r.updated_at }

/-- The `priceOptions` resolution inside `upsertProduct`:
`Array.isArray(payload?.detail?.priceOptions) ? payload.detail.priceOptions
: (base.detail?.priceOptions || [])`. -/
def resolvePriceOptions (payload : Payload) (existing : Option Product) : JVal :=
  match (payload.detail.getD []).lookup "priceOptions" with
  | some (JVal.arr l) => JVal.arr l
  | _ =>
    match existing with
    | none => JVal.arr []
    | some b =>
      match b.detail.lookup "priceOptions" with
      | some v => if jsTruthy v then v else JVal.arr []
      | none => JVal.arr []

/-- Models `upsertProduct(payload, existing)` from `src/index.js` lines 74-95.
`now` is `new Date().toISOString()` and `uuid` is `crypto.randomUUID()`.
The spreads `{...base.detail, ...payload.detail, priceOptions}` and
`{...base, ...payload, id, updatedAt, createdAt, detail}` are modelled
so that key lookup agrees with JS: the later spread wins, and the
explicitly listed keys win over both. -/
def upsertProduct (payload : Payload) (existing : Option Product) (now : Nat) (uuid : String) :
    Product :=
  { id :=
      if jsTrim (jsOrStr payload.id (jsOrStr (existing.map Product.id) "")) = "" then uuid
      else jsTrim (jsOrStr payload.id (jsOrStr (existing.map Product.id) ""))
    name := payload.name <|> existing.bind Product.name
    brand := payload.brand <|> existing.bind Product.brand
    category := payload.category <|> existing.bind Product.category
    size := payload.size <|> existing.bind Product.size
    image := payload.image <|> existing.bind Product.image
    alt := payload.alt <|> existing.bind Product.alt
    featured := payload.featured <|> existing.bind Product.featured
    detail :=
      ("priceOptions", resolvePriceOptions payload existing) ::
        (payload.detail.getD [] ++ (existing.map Product.detail).getD [])
    createdAt :=
      match existing with
      | some b => b.createdAt
      | none => now
    updatedAt := now }

/-- Error response body `{ error: msg }`. -/
def errBody (msg : String) : List (String × JVal) :=
  [("error", JVal.str msg)]

/-- Response bodies the handlers produce. -/
inductive Body where
  | record : Product → Body
  | records : List Product → Body
  | json : List (String × JVal) → Body

/-- An HTTP response: status code and JSON body. -/
structure Resp where
  status : Nat
  body : Body

/-- Look a key up in a JSON-object response body. -/
def bodyLookup (b : Body) (k : String) : Option JVal :=
  match b with
  | Body.json o => o.lookup k
  | _ => none

/-- The 401 response `requireAuth` sends. -/
def authFailResp : Resp :=
  ⟨401, Body.json (errBody "No autorizado")⟩

/-- The `GET /` response: `{ mensaje: "API funcionando", version: "1.1.0" }`. -/
def rootResp : Resp :=
  ⟨200, Body.json [("mensaje", JVal.str "API funcionando"), ("version", JVal.str "1.1.0")]⟩

/-- A JS-falsy optional string: absent or empty (the `!payload.name`
test of the create handler). -/
def jsFalsyStr (o : Option String) : Bool :=
  match o with
  | none => true
  | some s => s == ""

/-- The row the create handler inserts: the merged product with the SQL
parameter coercions `|| null` on the optional text columns and
`|| false` on `featured`; `nm`/`br` are the (non-null) name and brand. -/
def mkRow (product : Product) (nm br : String) : Row :=
  { id := product.id
    name := nm
    brand := br
    category := jsOrNull product.category
    size := jsOrNull product.size
    image := jsOrNull product.image
    alt := jsOrNull product.alt
    featured := product.featured.getD false
    detail := product.detail
    created_at := product.createdAt
    updated_at := product.updatedAt }

/-- The column writes of the update statement
`set name=$2, brand=$3, ..., detail=$9, updated_at=$10`: every column
except `id` and `created_at` is overwritten from the merged product
(with the same SQL parameter coercions as on insert). -/
def writeCols (r : Row) (product : Product) (nm br : String) : Row :=
  { r with
    name := nm
    brand := br
    category := jsOrNull product.category
    size := jsOrNull product.size
    image := jsOrNull product.image
    alt := jsOrNull product.alt
    featured := product.featured.getD false
    detail := product.detail
    updated_at := product.updatedAt }

/-- Insertion step of the descending sort on `updated_at`. -/
def insertByUpdated (r : Row) : List Row → List Row
  | [] => [r]
  | x :: xs => if x.updated_at ≤ r.updated_at then r :: x :: xs else x :: insertByUpdated r xs

/-- Models `select * from products order by updated_at desc`. -/
def sortByUpdatedDesc (l : List Row) : List Row :=
  l.foldr insertByUpdated []

/-- Handler `GET /products`: list all records, ordered by `updated_at` descending. -/
def listProducts (store : List Row) : Resp :=
  ⟨200, Body.records ((sortByUpdatedDesc store).map formatRow)⟩

/-- Handler `GET /products/:id`: the matching record, or 404. -/
def getProduct (store : List Row) (pid : String) : Resp :=
  match store.find? (fun r => r.id == pid) with
  | some r => ⟨200, Body.record (formatRow r)⟩
  | none => ⟨404, Body.json (errBody "Producto no encontrado")⟩

/-- Handler `POST /products` (after `requireAuth`): validate `name`/`brand`,
merge with no existing record, insert.  A duplicate primary key makes
the insert fail, which the handler surfaces as a 500 with the store
unchanged; likewise a NULL `name`/`brand` would violate NOT NULL. -/
def postProducts (store : List Row) (payload : Payload) (now : Nat) (uuid : String) :
    Resp × List Row :=
  if jsFalsyStr payload.name || jsFalsyStr payload.brand then
    (⟨400, Body.json (errBody "Faltan campos obligatorios (name, brand)")⟩, store)
  else
    match (upsertProduct payload none now uuid).name, (upsertProduct payload none now uuid).brand with
    | some nm, some br =>
      if store.any (fun r => r.id == (upsertProduct payload none now uuid).id) then
        (⟨500, Body.json (errBody "No se pudo crear el producto")⟩, store)
      else
        (⟨201, Body.record (formatRow (mkRow (upsertProduct payload none now uuid) nm br))⟩,
         store ++ [mkRow (upsertProduct payload none now uuid) nm br])
    | _, _ => (⟨500, Body.json (errBody "No se pudo crear el producto")⟩, store)

/-- The table after the update statement of `PUT /products/:id`:
`where id=$1` uses the *merged* product's id, so every row whose id
equals it gets its columns rewritten (`id` and `created_at` are not in
the `set` list). -/
def putStore (store : List Row) (product : Product) (nm br : String) : List Row :=
  store.map (fun r => if r.id == product.id then writeCols r product nm br else r)

/-- The update-and-respond step of `PUT /products/:id`, given the merged
product.  When no row matches the merged id the statement succeeds with
zero rows, `returning *` is empty, and `formatRow(rows[0])` throws,
surfacing as a 500 with the store unchanged; a NULL `name`/`brand`
would violate NOT NULL, likewise a 500. -/
def putRun (store : List Row) (product : Product) : Resp × List Row :=
  match product.name, product.brand with
  | some nm, some br =>
    if store.any (fun r => r.id == product.id) then
      match (putStore store product nm br).find? (fun r => r.id == product.id) with
      | some r0 => (⟨200, Body.record (formatRow r0)⟩, putStore store product nm br)
      | none =>
        (⟨500, Body.json (errBody "No se pudo actualizar el producto")⟩, putStore store product nm br)
    else (⟨500, Body.json (errBody "No se pudo actualizar el producto")⟩, store)
  | _, _ => (⟨500, Body.json (errBody "No se pudo actualizar el producto")⟩, store)

/-- Handler `PUT /products/:id` (after `requireAuth`): look up the existing row
by the path id, merge with it, then run the update statement. -/
def putProducts (store : List Row) (pathId : String) (payload : Payload) (now : Nat)
    (uuid : String) : Resp × List Row :=
  match store.find? (fun r => r.id == pathId) with
  | none => (⟨404, Body.json (errBody "Producto no encontrado")⟩, store)
  | some row => putRun store (upsertProduct payload (some (formatRow row)) now uuid)

/-- Handler `DELETE /products/:id` (after `requireAuth`): delete every row with
the given id; 404 when the statement touched no row. -/
def deleteProducts (store : List Row) (pid : String) : Resp × List Row :=
  if store.any (fun r => r.id == pid) then
    (⟨200, Body.json [("ok", JVal.bool true)]⟩, store.filter (fun r => !(r.id == pid)))
  else (⟨404, Body.json (errBody "Producto no encontrado")⟩, store)

/-- Handler `POST /products` including the `requireAuth` middleware. -/
def handlePost (envAdmin envApi xApiKey authorization : String) (store : List Row)
    (payload : Payload) (now : Nat) (uuid : String) : Resp × List Row :=
  if requireAuthOk (adminToken envAdmin envApi) xApiKey authorization then
    postProducts store payload now uuid
  else (authFailResp, store)

/-- Handler `PUT /products/:id` including the `requireAuth` middleware. -/
def handlePut (envAdmin envApi xApiKey authorization : String) (store : List Row)
    (pathId : String) (payload : Payload) (now : Nat) (uuid : String) : Resp × List Row :=
  if requireAuthOk (adminToken envAdmin envApi) xApiKey authorization then
    putProducts store pathId payload now uuid
  else (authFailResp, store)

/-- Handler `DELETE /products/:id` including the `requireAuth` middleware. -/
def handleDelete (envAdmin envApi xApiKey authorization : String) (store : List Row)
    (pathId : String) : Resp × List Row :=
  if requireAuthOk (adminToken envAdmin envApi) xApiKey authorization then
    deleteProducts store pathId
  else (authFailResp, store)

/-- The store invariant of §3:  `createdAt ≤ updatedAt` for every
stored row. -/
def StoreInv (store : List Row) : Prop :=
  ∀ r ∈ store, r.created_at ≤ r.updated_at

/-! ### Sample data used by witnesses and counterexamples -/

/-- The empty payload (a request body `{}`). -/
def payload0 : Payload := ⟨none, none, none, none, none, none, none, none, none⟩

/-- A sample existing record with id `"e"`. -/
def productE : Product :=
  { id := "e", name := some "N", brand := some "B", category := none, size := none,
    image := none, alt := none, featured := some false, detail := [("a", JVal.str "x")],
    createdAt := 1, updatedAt := 2 }

/-- A sample stored row with id `"a"`. -/
def rowA : Row := ⟨"a", "NA", "BA", none, none, none, none, false, [], 1, 1⟩

/-- A sample stored row with id `"b"`. -/
def rowB : Row := ⟨"b", "NB", "BB", none, none, none, none, false, [], 2, 2⟩

/-! ### Helper lemmas -/

theorem lookup_append {α β : Type} [BEq α] (k : α) (l1 l2 : List (α × β)) :
    (l1 ++ l2).lookup k =
      (match l1.lookup k with
       | some v => some v
       | none => l2.lookup k) := by
  induction l1 with
  | nil => simp [List.lookup]
  | cons hd tl ih =>
    obtain ⟨k', v⟩ := hd
    cases hkk : k == k' <;> simp [List.lookup, hkk, ih]

theorem dropWhile_dropWhile (p : Char → Bool) (l : List Char) :
    (l.dropWhile p).dropWhile p = l.dropWhile p := by
  induction l with
  | nil => rfl
  | cons c t ih =>
    cases hc : p c
    · rw [List.dropWhile_cons_of_neg (by simp [hc]), List.dropWhile_cons_of_neg (by simp [hc])]
    · rw [List.dropWhile_cons_of_pos hc, ih]

theorem head?_dropWhile (p : Char → Bool) (l : List Char) (c : Char)
    (h : (l.dropWhile p).head? = some c) : p c = false := by
  induction l with
  | nil => simp at h
  | cons a t ih =>
    cases ha : p a
    · rw [List.dropWhile_cons_of_neg (by simp [ha])] at h
      simp at h
      exact h ▸ ha
    · rw [List.dropWhile_cons_of_pos ha] at h
      exact ih h

theorem getLast?_dropWhile (p : Char → Bool) (l : List Char)
    (h : l.dropWhile p ≠ []) : (l.dropWhile p).getLast? = l.getLast? := by
  induction l with
  | nil => simp at h
  | cons a t ih =>
    cases ha : p a
    · rw [List.dropWhile_cons_of_neg (by simp [ha])]
    · rw [List.dropWhile_cons_of_pos ha] at h ⊢
      have ht : t ≠ [] := by
        intro h0
        rw [h0] at h
        exact h rfl
      obtain ⟨b, u, rfl⟩ := List.exists_cons_of_ne_nil ht
      rw [ih h, List.getLast?_cons_cons]

theorem dropWhile_eq_self_of_head? (p : Char → Bool) (l : List Char)
    (h : ∀ c, l.head? = some c → p c = false) : l.dropWhile p = l := by
  cases l with
  | nil => rfl
  | cons a t =>
    rw [List.dropWhile_cons_of_neg (by simp [h a rfl])]

theorem trimChars_idem (l : List Char) : trimChars (trimChars l) = trimChars l := by
  have h1 : (((l.dropWhile isJsSpace).reverse.dropWhile isJsSpace).reverse).dropWhile isJsSpace
      = ((l.dropWhile isJsSpace).reverse.dropWhile isJsSpace).reverse := by
    apply dropWhile_eq_self_of_head?
    intro c hc
    rw [List.head?_reverse] at hc
    have hw : (l.dropWhile isJsSpace).reverse.dropWhile isJsSpace ≠ [] := by
      intro h0
      rw [h0] at hc
      simp at hc
    rw [getLast?_dropWhile _ _ hw, List.getLast?_reverse] at hc
    exact head?_dropWhile _ _ c hc
  unfold trimChars
  rw [h1, List.reverse_reverse, dropWhile_dropWhile]

theorem jsTrim_idem (s : String) : jsTrim (jsTrim s) = jsTrim s := by
  unfold jsTrim
  have h : (String.mk (trimChars s.data)).data = trimChars s.data := rfl
  rw [h, trimChars_idem]

theorem requireAuthOk_iff (secret xk auth : String) :
    requireAuthOk secret xk auth = true ↔
      ¬(guardToken xk auth = "" ∨ guardToken xk auth ≠ secret) := by
  unfold requireAuthOk
  simp [not_or]

theorem postProducts_status_ne_401 (store : List Row) (payload : Payload) (now : Nat)
    (uuid : String) : (postProducts store payload now uuid).1.status ≠ 401 := by
  unfold postProducts
  split
  · simp
  · split
    · split <;> simp
    · simp

theorem putRun_status_ne_401 (store : List Row) (product : Product) :
    (putRun store product).1.status ≠ 401 := by
  unfold putRun
  split
  · split
    · split <;> simp
    · simp
  · simp

theorem putProducts_status_ne_401 (store : List Row) (pathId : String) (payload : Payload)
    (now : Nat) (uuid : String) : (putProducts store pathId payload now uuid).1.status ≠ 401 := by
  unfold putProducts
  split
  · simp
  · apply putRun_status_ne_401

theorem deleteProducts_status_ne_401 (store : List Row) (pid : String) :
    (deleteProducts store pid).1.status ≠ 401 := by
  unfold deleteProducts
  split <;> simp

/-! ### Claim C3 -/

/-- Claim C3: a mutating request (POST, PUT, DELETE) is rejected with a
401 authentication error exactly when the supplied credential — the
`x-api-key` header taking precedence over the bearer-stripped
`Authorization` header — is missing or differs from the configured
secret; on rejection the handler body never runs and the store is
unchanged. -/
theorem claim_c3 (envAdmin envApi xApiKey authorization pathId : String) (store : List Row)
    (payload : Payload) (now : Nat) (uuid : String) :
    ((guardToken xApiKey authorization = "" ∨
        guardToken xApiKey authorization ≠ adminToken envAdmin envApi) ↔
      (handlePost envAdmin envApi xApiKey authorization store payload now uuid).1.status = 401) ∧
    ((guardToken xApiKey authorization = "" ∨
        guardToken xApiKey authorization ≠ adminToken envAdmin envApi) →
      handlePost envAdmin envApi xApiKey authorization store payload now uuid =
        (authFailResp, store)) ∧
    ((guardToken xApiKey authorization = "" ∨
        guardToken xApiKey authorization ≠ adminToken envAdmin envApi) ↔
      (handlePut envAdmin envApi xApiKey authorization store pathId payload now uuid).1.status
        = 401) ∧
    ((guardToken xApiKey authorization = "" ∨
        guardToken xApiKey authorization ≠ adminToken envAdmin envApi) →
      handlePut envAdmin envApi xApiKey authorization store pathId payload now uuid =
        (authFailResp, store)) ∧
    ((guardToken xApiKey authorization = "" ∨
        guardToken xApiKey authorization ≠ adminToken envAdmin envApi) ↔
      (handleDelete envAdmin envApi xApiKey authorization store pathId).1.status = 401) ∧
    ((guardToken xApiKey authorization = "" ∨
        guardToken xApiKey authorization ≠ adminToken envAdmin envApi) →
      handleDelete envAdmin envApi xApiKey authorization store pathId =
        (authFailResp, store)) := by
  by_cases hbad : guardToken xApiKey authorization = "" ∨
      guardToken xApiKey authorization ≠ adminToken envAdmin envApi
  · have hro : requireAuthOk (adminToken envAdmin envApi) xApiKey authorization = false := by
      cases hb : requireAuthOk (adminToken envAdmin envApi) xApiKey authorization
      · rfl
      · exact absurd hbad ((requireAuthOk_iff _ _ _).1 hb)
    have hfail : ∀ inner : Resp × List Row,
        (if requireAuthOk (adminToken envAdmin envApi) xApiKey authorization then inner
         else (authFailResp, store)) = (authFailResp, store) := by
      intro inner
      rw [hro]
      simp
    have h1 : handlePost envAdmin envApi xApiKey authorization store payload now uuid =
        (authFailResp, store) := hfail _
    have h2 : handlePut envAdmin envApi xApiKey authorization store pathId payload now uuid =
        (authFailResp, store) := hfail _
    have h3 : handleDelete envAdmin envApi xApiKey authorization store pathId =
        (authFailResp, store) := hfail _
    refine ⟨?_, fun _ => h1, ?_, fun _ => h2, ?_, fun _ => h3⟩
    · exact iff_of_true hbad (by rw [h1]; rfl)
    · exact iff_of_true hbad (by rw [h2]; rfl)
    · exact iff_of_true hbad (by rw [h3]; rfl)
  · have hro : requireAuthOk (adminToken envAdmin envApi) xApiKey authorization = true :=
      (requireAuthOk_iff _ _ _).2 hbad
    have h1 : handlePost envAdmin envApi xApiKey authorization store payload now uuid =
        postProducts store payload now uuid := by
      unfold handlePost
      rw [hro]
      simp
    have h2 : handlePut envAdmin envApi xApiKey authorization store pathId payload now uuid =
        putProducts store pathId payload now uuid := by
      unfold handlePut
      rw [hro]
      simp
    have h3 : handleDelete envAdmin envApi xApiKey authorization store pathId =
        deleteProducts store pathId := by
      unfold handleDelete
      rw [hro]
      simp
    refine ⟨?_, fun hb => absurd hb hbad, ?_, fun hb => absurd hb hbad, ?_,
      fun hb => absurd hb hbad⟩
    · exact iff_of_false hbad (by rw [h1]; exact postProducts_status_ne_401 _ _ _ _)
    · exact iff_of_false hbad (by rw [h2]; exact putProducts_status_ne_401 _ _ _ _ _)
    · exact iff_of_false hbad (by rw [h3]; exact deleteProducts_status_ne_401 _ _)

/-- Witness for claim C3: a POST carrying the wrong `x-api-key`
`"wrong"` against the default secret is rejected untouched, and a
DELETE with no credential at all is rejected untouched. -/
theorem claim_c3_witness :
    handlePost "" "" "wrong" "" [rowA] payload0 5 "u" = (authFailResp, [rowA]) ∧
    handleDelete "" "" "" "" [rowA] "a" = (authFailResp, [rowA]) := by
  constructor
  · exact (claim_c3 "" "" "wrong" "" "a" [rowA] payload0 5 "u").2.1 (Or.inr (by decide))
  · exact (claim_c3 "" "" "" "" "a" [rowA] payload0 5 "u").2.2.2.2.2 (Or.inl (by decide))

/-! ### Claim C1 -/

/-- The id-resolution fallback as claim C1 states it: the existing
record's id when an existing record is present, otherwise the freshly
generated identifier. -/
def resolveIdClaimedFallback (existing : Option Product) (uuid : String) : String :=
  match existing with
  | some b => b.id
  | none => uuid

/-- The id-resolution rule exactly as claim C1 (spec §4.2 step 5)
states it: the payload's id (trimmed) when it is present and non-blank
after trimming whitespace; otherwise the existing record's id when
present; otherwise the fresh identifier.  In particular a
whitespace-only payload id falls back to the existing record's id. -/
def resolveIdClaimed (payload : Payload) (existing : Option Product) (uuid : String) : String :=
  match payload.id with
  | some s => if jsTrim s = "" then resolveIdClaimedFallback existing uuid else jsTrim s
  | none => resolveIdClaimedFallback existing uuid

/-- The fallback the code actually computes when the payload id is
absent or empty: the trimmed existing id when non-blank, otherwise the
fresh identifier. -/
def resolveIdActualFallback (existing : Option Product) (uuid : String) : String :=
  match existing with
  | some b => if jsTrim b.id = "" then uuid else jsTrim b.id
  | none => uuid

/-- The id resolution `(payload.id || base.id || "").trim() || crypto.randomUUID()`
actually performs, phrased as the amended claim C1: a non-empty payload
id short-circuits the existing id even when it is whitespace-only, in
which case a fresh identifier is generated. -/
def resolveIdActual (payload : Payload) (existing : Option Product) (uuid : String) : String :=
  match payload.id with
  | some s =>
    if s = "" then resolveIdActualFallback existing uuid
    else if jsTrim s = "" then uuid else jsTrim s
  | none => resolveIdActualFallback existing uuid

/-- Claim C1 (corrected), counterexample: with a payload id consisting
only of whitespace and an existing record with id `"e"`, the claim
mandates the resolved id `"e"`, but `upsertProduct` generates the fresh
identifier `"u-1"` instead — the truthy whitespace string short-circuits
`payload.id || base.id` before trimming. -/
theorem claim_c1_counterexample :
    (upsertProduct { payload0 with id := some " " } (some productE) 5 "u-1").id = "u-1" ∧
    resolveIdClaimed { payload0 with id := some " " } (some productE) "u-1" = "e" ∧
    ("u-1" : String) ≠ "e" :=
  ⟨rfl, rfl, by decide⟩

/-- Claim C1 (amended): the Record Merger resolves the persisted id as
the trimmed payload id when the payload id is present, non-empty, and
non-blank after trimming; a present but whitespace-only payload id
yields a freshly generated identifier (it does not fall back to the
existing record's id); when the payload id is absent or empty, the
trimmed existing id is used when non-blank, else a fresh identifier. -/
theorem claim_c1 (payload : Payload) (existing : Option Product) (now : Nat) (uuid : String) :
    (upsertProduct payload existing now uuid).id = resolveIdActual payload existing uuid := by
  have h0 : jsTrim "" = "" := by decide
  cases hp : payload.id with
  | none =>
    cases existing with
    | none => simp [upsertProduct, resolveIdActual, resolveIdActualFallback, jsOrStr, hp, h0]
    | some b =>
      simp only [upsertProduct, resolveIdActual, resolveIdActualFallback, jsOrStr, hp,
        Option.map_some']
      by_cases hb : b.id = ""
      · simp [hb, h0]
      · simp [hb]
  | some s =>
    by_cases hs : s = ""
    · subst hs
      cases existing with
      | none => simp [upsertProduct, resolveIdActual, resolveIdActualFallback, jsOrStr, hp, h0]
      | some b =>
        simp only [upsertProduct, resolveIdActual, resolveIdActualFallback, jsOrStr, hp,
          Option.map_some']
        by_cases hb : b.id = ""
        · simp [hb, h0]
        · simp [hb]
    · simp [upsertProduct, resolveIdActual, jsOrStr, hp, hs]

/-! ### Claim C2 -/

/-- Claim C2 (the merge law): every top-level data field absent from the
payload keeps its value from the existing record; every `detail` key
other than the specially-handled `priceOptions` that is absent from the
payload's `detail` keeps its value from the existing record's `detail`;
and when the payload's `detail.priceOptions` is present as a sequence,
the merged `detail.priceOptions` is exactly that sequence (wholesale
replacement). -/
theorem claim_c2 (payload : Payload) (existing : Product) (now : Nat) (uuid : String) :
    (payload.name = none →
      (upsertProduct payload (some existing) now uuid).name = existing.name) ∧
    (payload.brand = none →
      (upsertProduct payload (some existing) now uuid).brand = existing.brand) ∧
    (payload.category = none →
      (upsertProduct payload (some existing) now uuid).category = existing.category) ∧
    (payload.size = none →
      (upsertProduct payload (some existing) now uuid).size = existing.size) ∧
    (payload.image = none →
      (upsertProduct payload (some existing) now uuid).image = existing.image) ∧
    (payload.alt = none →
      (upsertProduct payload (some existing) now uuid).alt = existing.alt) ∧
    (payload.featured = none →
      (upsertProduct payload (some existing) now uuid).featured = existing.featured) ∧
    (∀ k : String, k ≠ "priceOptions" → (payload.detail.getD []).lookup k = none →
      (upsertProduct payload (some existing) now uuid).detail.lookup k =
        existing.detail.lookup k) ∧
    (∀ l : List JVal, (payload.detail.getD []).lookup "priceOptions" = some (JVal.arr l) →
      (upsertProduct payload (some existing) now uuid).detail.lookup "priceOptions" =
        some (JVal.arr l)) := by
  refine ⟨fun h => by simp [upsertProduct, h], fun h => by simp [upsertProduct, h],
    fun h => by simp [upsertProduct, h], fun h => by simp [upsertProduct, h],
    fun h => by simp [upsertProduct, h], fun h => by simp [upsertProduct, h],
    fun h => by simp [upsertProduct, h], ?_, ?_⟩
  · intro k hk hnone
    have hk' : (k == "priceOptions") = false := by simpa using hk
    simp only [upsertProduct, Option.map_some', Option.getD_some]
    rw [List.lookup, hk', lookup_append, hnone]
  · intro l hl
    simp only [upsertProduct]
    rw [List.lookup]
    simp [resolvePriceOptions, hl]

/-- A payload touching only `detail` (with keys `a` and
`priceOptions`), used to exercise the merge law. -/
def payloadC2 : Payload :=
  { payload0 with detail := some [("a", JVal.str "y"), ("priceOptions", JVal.arr [JVal.num 1])] }

/-- Witness for claim C2 at concrete inputs: merging a detail-only
payload over the sample record keeps `name`/`featured`, keeps the
untouched detail key `zz`, and replaces `priceOptions` wholesale. -/
theorem claim_c2_witness :
    (upsertProduct payloadC2 (some productE) 5 "u").name = productE.name ∧
    (upsertProduct payloadC2 (some productE) 5 "u").featured = productE.featured ∧
    (upsertProduct payloadC2 (some productE) 5 "u").detail.lookup "zz" =
      productE.detail.lookup "zz" ∧
    (upsertProduct payloadC2 (some productE) 5 "u").detail.lookup "priceOptions" =
      some (JVal.arr [JVal.num 1]) := by
  have h := claim_c2 payloadC2 productE 5 "u"
  exact ⟨h.1 rfl, h.2.2.2.2.2.2.1 rfl, h.2.2.2.2.2.2.2.1 "zz" (by decide) rfl,
    h.2.2.2.2.2.2.2.2 [JVal.num 1] rfl⟩

/-! ### Claims C6 and C7 -/

/-- A valid create payload `{name: "Shoe", brand: "Acme"}`. -/
def payloadNB : Payload := { payload0 with name := some "Shoe", brand := some "Acme" }

/-- A create payload whose explicit id collides with the stored row
`rowA`. -/
def payloadC7 : Payload :=
  { payload0 with name := some "x", brand := some "y", id := some "a" }

theorem upsert_none_name (payload : Payload) (now : Nat) (uuid : String) (nm : String)
    (hn : payload.name = some nm) : (upsertProduct payload none now uuid).name = some nm := by
  simp [upsertProduct, hn]

theorem upsert_none_brand (payload : Payload) (now : Nat) (uuid : String) (br : String)
    (hb : payload.brand = some br) : (upsertProduct payload none now uuid).brand = some br := by
  simp [upsertProduct, hb]

theorem validation_false (payload : Payload) (nm br : String) (hn : payload.name = some nm)
    (hn2 : nm ≠ "") (hb : payload.brand = some br) (hb2 : br ≠ "") :
    (jsFalsyStr payload.name || jsFalsyStr payload.brand) = false := by
  simp [jsFalsyStr, hn, hb, hn2, hb2]

/-- Evaluation of the create handler once validation has passed: the
merged product's `name`/`brand` are the payload's, and the result is
governed by the primary-key collision check. -/
theorem postProducts_valid (store : List Row) (payload : Payload) (now : Nat) (uuid : String)
    (nm br : String) (hn : payload.name = some nm) (hn2 : nm ≠ "")
    (hb : payload.brand = some br) (hb2 : br ≠ "") :
    postProducts store payload now uuid =
      if (store.any fun r => r.id == (upsertProduct payload none now uuid).id) = true then
        (⟨500, Body.json (errBody "No se pudo crear el producto")⟩, store)
      else
        (⟨201, Body.record (formatRow (mkRow (upsertProduct payload none now uuid) nm br))⟩,
         store ++ [mkRow (upsertProduct payload none now uuid) nm br]) := by
  unfold postProducts
  rw [if_neg (by simp [validation_false payload nm br hn hn2 hb hb2])]
  rw [upsert_none_name payload now uuid nm hn, upsert_none_brand payload now uuid br hb]

/-- The resolution `resolvePriceOptions` with no existing record is exactly the
claim's description: the payload's `detail.priceOptions` verbatim when
it is a sequence, else the empty sequence. -/
theorem resolvePriceOptions_none (payload : Payload) :
    resolvePriceOptions payload none =
      (match (payload.detail.getD []).lookup "priceOptions" with
       | some (JVal.arr l) => JVal.arr l
       | _ => JVal.arr []) := by
  cases hpo : (payload.detail.getD []).lookup "priceOptions" with
  | none => simp [resolvePriceOptions, hpo]
  | some v => cases v <;> simp [resolvePriceOptions, hpo]

/-- Claim C6: whenever a create request with non-empty `name` and
`brand` produces a 201 response, the created record has a non-blank id,
`createdAt` equal to `updatedAt`, and `detail.priceOptions` equal to
the payload's `detail.priceOptions` when that is a sequence, else the
empty sequence.  (`jsTrim uuid ≠ ""` reflects that `crypto.randomUUID()`
always returns a non-blank string.) -/
theorem claim_c6 (store : List Row) (payload : Payload) (now : Nat) (uuid : String)
    (nm br : String) (hn : payload.name = some nm) (hn2 : nm ≠ "")
    (hb : payload.brand = some br) (hb2 : br ≠ "") (hu : jsTrim uuid ≠ "") :
    ∀ rec : Product,
      (postProducts store payload now uuid).1 = ⟨201, Body.record rec⟩ →
      jsTrim rec.id ≠ "" ∧ rec.createdAt = rec.updatedAt ∧
      rec.detail.lookup "priceOptions" =
        some (match (payload.detail.getD []).lookup "priceOptions" with
              | some (JVal.arr l) => JVal.arr l
              | _ => JVal.arr []) := by
  intro rec hrec
  rw [congrArg Prod.fst (postProducts_valid store payload now uuid nm br hn hn2 hb hb2)] at hrec
  by_cases hany : (store.any fun r => r.id == (upsertProduct payload none now uuid).id) = true
  · rw [if_pos hany] at hrec
    simp [Resp.mk.injEq] at hrec
  · rw [if_neg hany] at hrec
    simp only [Resp.mk.injEq, Body.record.injEq, true_and] at hrec
    subst hrec
    refine ⟨?_, ?_, ?_⟩
    · have hid : (upsertProduct payload none now uuid).id =
          if jsTrim (jsOrStr payload.id "") = "" then uuid
          else jsTrim (jsOrStr payload.id "") := by
        simp [upsertProduct, jsOrStr]
      show jsTrim (upsertProduct payload none now uuid).id ≠ ""
      rw [hid]
      by_cases ht : jsTrim (jsOrStr payload.id "") = ""
      · rw [if_pos ht]
        exact hu
      · rw [if_neg ht, jsTrim_idem]
        exact ht
    · show (upsertProduct payload none now uuid).createdAt =
        (upsertProduct payload none now uuid).updatedAt
      simp [upsertProduct]
    · show ((upsertProduct payload none now uuid).detail).lookup "priceOptions" = _
      simp only [upsertProduct]
      rw [List.lookup]
      simp [resolvePriceOptions_none]

/-- Witness for claim C6: creating `{name: "Shoe", brand: "Acme"}` in
the empty store with fresh id `"u-1"` yields a record with those
properties. -/
theorem claim_c6_witness :
    jsTrim (formatRow (mkRow (upsertProduct payloadNB none 5 "u-1") "Shoe" "Acme")).id ≠ "" ∧
    (formatRow (mkRow (upsertProduct payloadNB none 5 "u-1") "Shoe" "Acme")).createdAt =
      (formatRow (mkRow (upsertProduct payloadNB none 5 "u-1") "Shoe" "Acme")).updatedAt ∧
    (formatRow (mkRow (upsertProduct payloadNB none 5 "u-1") "Shoe" "Acme")).detail.lookup
        "priceOptions" = some (JVal.arr []) := by
  have h := claim_c6 [] payloadNB 5 "u-1" "Shoe" "Acme" rfl (by decide) rfl (by decide)
    (by decide) (formatRow (mkRow (upsertProduct payloadNB none 5 "u-1") "Shoe" "Acme")) rfl
  exact ⟨h.1, h.2.1, h.2.2⟩

/-- Claim C7 (amended): a create payload missing `name` or `brand` (or
with either empty) is rejected with a 400 and the store unchanged;
otherwise the merger runs with no existing record and — provided the
resolved id does not collide with a stored record's id — the response
is 201 with the created record; an id collision makes the insert fail
with a 500 store error and the store unchanged. -/
theorem claim_c7 (store : List Row) (payload : Payload) (now : Nat) (uuid : String) :
    ((jsFalsyStr payload.name = true ∨ jsFalsyStr payload.brand = true) →
      postProducts store payload now uuid =
        (⟨400, Body.json (errBody "Faltan campos obligatorios (name, brand)")⟩, store)) ∧
    (∀ nm br, payload.name = some nm → nm ≠ "" → payload.brand = some br → br ≠ "" →
      ((store.any fun r => r.id == (upsertProduct payload none now uuid).id) = false →
        postProducts store payload now uuid =
          (⟨201, Body.record (formatRow (mkRow (upsertProduct payload none now uuid) nm br))⟩,
           store ++ [mkRow (upsertProduct payload none now uuid) nm br])) ∧
      ((store.any fun r => r.id == (upsertProduct payload none now uuid).id) = true →
        (postProducts store payload now uuid).1.status = 500 ∧
        (postProducts store payload now uuid).2 = store)) := by
  constructor
  · intro h
    have hcond : (jsFalsyStr payload.name || jsFalsyStr payload.brand) = true := by
      rcases h with h | h <;> simp [h]
    unfold postProducts
    rw [if_pos (by simp [hcond])]
  · intro nm br hn hn2 hb hb2
    constructor
    · intro hany
      rw [postProducts_valid store payload now uuid nm br hn hn2 hb hb2]
      rw [if_neg (by simp [hany])]
    · intro hany
      have hpost : postProducts store payload now uuid =
          (⟨500, Body.json (errBody "No se pudo crear el producto")⟩, store) := by
        rw [postProducts_valid store payload now uuid nm br hn hn2 hb hb2]
        rw [if_pos hany]
      rw [hpost]
      exact ⟨rfl, rfl⟩

/-- Claim C7 (corrected), counterexample: a valid create payload whose
explicit id `"a"` collides with the stored row of the same id makes the
insert fail: the response is a 500, not the 201 the claim promises, and
nothing is persisted. -/
theorem claim_c7_counterexample :
    payloadC7.name = some "x" ∧ payloadC7.brand = some "y" ∧
    (postProducts [rowA] payloadC7 5 "u").1.status = 500 ∧
    (postProducts [rowA] payloadC7 5 "u").2 = [rowA] :=
  ⟨rfl, rfl, rfl, rfl⟩

/-- Witness for claim C7: the empty payload is rejected with a 400, and
a valid payload in the empty store is created with a 201. -/
theorem claim_c7_witness :
    postProducts [] payload0 5 "u" =
      (⟨400, Body.json (errBody "Faltan campos obligatorios (name, brand)")⟩, []) ∧
    postProducts [] payloadNB 5 "u-1" =
      (⟨201, Body.record (formatRow (mkRow (upsertProduct payloadNB none 5 "u-1") "Shoe" "Acme"))⟩,
       [] ++ [mkRow (upsertProduct payloadNB none 5 "u-1") "Shoe" "Acme"]) := by
  constructor
  · exact (claim_c7 [] payload0 5 "u").1 (Or.inl rfl)
  · exact ((claim_c7 [] payloadNB 5 "u-1").2 "Shoe" "Acme" rfl (by decide) rfl
      (by decide)).1 rfl

/-! ### Claim C8 -/

/-- Claim C8: deleting a non-existent id yields 404 with the store
unchanged (never a 500, never a silent success); deleting an existing
id removes the matching record and responds 200 with an `ok: true`
body. -/
theorem claim_c8 (store : List Row) (pid : String) :
    ((deleteProducts store pid).1.status = 404 ∨ (deleteProducts store pid).1.status = 200) ∧
    (store.any (fun r => r.id == pid) = false →
      deleteProducts store pid = (⟨404, Body.json (errBody "Producto no encontrado")⟩, store)) ∧
    (store.any (fun r => r.id == pid) = true →
      deleteProducts store pid =
        (⟨200, Body.json [("ok", JVal.bool true)]⟩, store.filter (fun r => !(r.id == pid))) ∧
      ∀ r ∈ (deleteProducts store pid).2, r.id ≠ pid) := by
  refine ⟨?_, ?_, ?_⟩
  · unfold deleteProducts
    split
    · right; rfl
    · left; rfl
  · intro h
    unfold deleteProducts
    rw [h]
    simp
  · intro h
    have h2 : deleteProducts store pid =
        (⟨200, Body.json [("ok", JVal.bool true)]⟩, store.filter (fun r => !(r.id == pid))) := by
      unfold deleteProducts
      rw [h]
      simp
    refine ⟨h2, ?_⟩
    intro r hr
    rw [h2] at hr
    simp only [List.mem_filter, Bool.not_eq_true'] at hr
    intro hid
    rw [hid] at hr
    simp at hr

/-- Witness for claim C8 at concrete inputs: deleting the missing id
`"zzz"` from the one-row store yields 404 and leaves the store
untouched; deleting `"a"` removes the row and responds `ok: true`. -/
theorem claim_c8_witness :
    deleteProducts [rowA] "zzz" = (⟨404, Body.json (errBody "Producto no encontrado")⟩, [rowA]) ∧
    deleteProducts [rowA] "a" = (⟨200, Body.json [("ok", JVal.bool true)]⟩, []) := by
  constructor
  · exact (claim_c8 [rowA] "zzz").2.1 rfl
  · simpa using ((claim_c8 [rowA] "a").2.2 rfl).1

/-! ### Claim C4 -/

theorem writeCols_id (r : Row) (product : Product) (nm br : String) :
    (writeCols r product nm br).id = r.id := rfl

theorem writeCols_created (r : Row) (product : Product) (nm br : String) :
    (writeCols r product nm br).created_at = r.created_at := rfl

theorem find?_putStore (store : List Row) (product : Product) (nm br : String) (row : Row)
    (h : store.find? (fun r => r.id == product.id) = some row) :
    (putStore store product nm br).find? (fun r => r.id == product.id) =
      some (writeCols row product nm br) := by
  induction store with
  | nil => simp at h
  | cons a t ih =>
    cases ha : (a.id == product.id) with
    | true =>
      simp only [List.find?, ha] at h
      injection h with h
      subst h
      show ((if a.id == product.id then writeCols a product nm br else a) ::
          putStore t product nm br).find? (fun r => r.id == product.id) = _
      rw [if_pos ha]
      have hw : ((writeCols a product nm br).id == product.id) = true := ha
      simp only [List.find?, hw]
    | false =>
      simp only [List.find?, ha] at h
      show ((if a.id == product.id then writeCols a product nm br else a) ::
          putStore t product nm br).find? (fun r => r.id == product.id) = _
      rw [if_neg (by simp [ha])]
      simp only [List.find?, ha]
      exact ih h

/-- Evaluation of the update-and-respond step when the merged product
has non-null `name`/`brand`, some row matches the merged id, and the
post-update lookup returns `r0`. -/
theorem putRun_valid (store : List Row) (product : Product) (nm br : String) (r0 : Row)
    (hn : product.name = some nm) (hb : product.brand = some br)
    (hany : (store.any fun r => r.id == product.id) = true)
    (hf : (putStore store product nm br).find? (fun r => r.id == product.id) = some r0) :
    putRun store product = (⟨200, Body.record (formatRow r0)⟩, putStore store product nm br) := by
  unfold putRun
  rw [hn, hb]
  show (if (store.any fun r => r.id == product.id) = true then
      match (putStore store product nm br).find? (fun r => r.id == product.id) with
      | some r0 =>
        (({ status := 200, body := Body.record (formatRow r0) } : Resp),
         putStore store product nm br)
      | none =>
        (({ status := 500, body := Body.json (errBody "No se pudo actualizar el producto") } : Resp),
         putStore store product nm br)
    else
      (({ status := 500, body := Body.json (errBody "No se pudo actualizar el producto") } : Resp),
       store)) = _
  rw [if_pos hany, hf]

/-- Claim C4 (corrected), counterexample: the update statement keys on
the *merged* id, not the path id.  With rows `a` and `b` stored,
`PUT /products/a` with payload `{id: "b"}` leaves row `a` (the record
the path identifies) untouched — its `updated_at` stays 1 instead of
becoming the merge timestamp 5 — and instead rewrites row `b` (another
record, whose name becomes row `a`'s, updated at 5), while still
responding 200. -/
theorem claim_c4_counterexample :
    ((putProducts [rowA, rowB] "a" { payload0 with id := some "b" } 5 "u").2).map
        Row.updated_at = [1, 5] ∧
    ((putProducts [rowA, rowB] "a" { payload0 with id := some "b" } 5 "u").2).map
        Row.name = ["NA", "NA"] ∧
    [rowA, rowB].map Row.updated_at = [1, 2] ∧
    (upsertProduct { payload0 with id := some "b" } (some (formatRow rowA)) 5 "u").updatedAt
      = 5 ∧
    (putProducts [rowA, rowB] "a" { payload0 with id := some "b" } 5 "u").1.status = 200 :=
  ⟨rfl, rfl, rfl, rfl, rfl⟩

/-- Claim C4 (amended): for an update request on an existing id whose
payload carries no id of its own (and whose path id is non-empty
without surrounding whitespace), the merged id equals the path id, the
stored entry keyed by the path id is the one overwritten with the
merged record's columns (the `id` and `created_at` columns are never
written), every record with a different id is left in place, and the
response is 200 with the merged record as persisted.  (When the payload
does carry a different non-blank id, the update statement targets the
merged id instead — see the counterexample.) -/
theorem claim_c4 (store : List Row) (pathId : String) (payload : Payload) (now : Nat)
    (uuid : String) (row : Row)
    (hfind : store.find? (fun r => r.id == pathId) = some row)
    (hpid : payload.id = none)
    (htrim : jsTrim pathId = pathId)
    (hne : pathId ≠ "") :
    (upsertProduct payload (some (formatRow row)) now uuid).id = pathId ∧
    putProducts store pathId payload now uuid =
      (⟨200, Body.record (formatRow (writeCols row
          (upsertProduct payload (some (formatRow row)) now uuid)
          (payload.name.getD row.name) (payload.brand.getD row.brand)))⟩,
       putStore store (upsertProduct payload (some (formatRow row)) now uuid)
         (payload.name.getD row.name) (payload.brand.getD row.brand)) ∧
    (writeCols row (upsertProduct payload (some (formatRow row)) now uuid)
        (payload.name.getD row.name) (payload.brand.getD row.brand)).id = row.id ∧
    (writeCols row (upsertProduct payload (some (formatRow row)) now uuid)
        (payload.name.getD row.name) (payload.brand.getD row.brand)).created_at
      = row.created_at ∧
    (∀ r ∈ store, r.id ≠ pathId →
      r ∈ (putProducts store pathId payload now uuid).2) := by
  have hrowid : row.id = pathId := by
    have := List.find?_some hfind
    simpa using this
  have hmid : (upsertProduct payload (some (formatRow row)) now uuid).id = pathId := by
    simp [upsertProduct, jsOrStr, hpid, formatRow, hrowid, htrim, hne]
  have hname : (upsertProduct payload (some (formatRow row)) now uuid).name =
      some (payload.name.getD row.name) := by
    cases hn : payload.name <;> simp [upsertProduct, formatRow, hn]
  have hbrand : (upsertProduct payload (some (formatRow row)) now uuid).brand =
      some (payload.brand.getD row.brand) := by
    cases hb : payload.brand <;> simp [upsertProduct, formatRow, hb]
  have hmem : row ∈ store := List.mem_of_find?_eq_some hfind
  have hany : (store.any fun r =>
      r.id == (upsertProduct payload (some (formatRow row)) now uuid).id) = true := by
    rw [hmid]
    simp only [List.any_eq_true]
    exact ⟨row, hmem, by simp [hrowid]⟩
  have hfind2 : store.find? (fun r =>
      r.id == (upsertProduct payload (some (formatRow row)) now uuid).id) = some row := by
    rw [hmid]
    exact hfind
  have hput : putProducts store pathId payload now uuid =
      (⟨200, Body.record (formatRow (writeCols row
          (upsertProduct payload (some (formatRow row)) now uuid)
          (payload.name.getD row.name) (payload.brand.getD row.brand)))⟩,
       putStore store (upsertProduct payload (some (formatRow row)) now uuid)
         (payload.name.getD row.name) (payload.brand.getD row.brand)) := by
    unfold putProducts
    rw [hfind]
    exact putRun_valid _ _ _ _ _ hname hbrand hany
      (find?_putStore _ _ _ _ _ hfind2)
  refine ⟨hmid, hput, rfl, rfl, ?_⟩
  intro r hr hne'
  rw [congrArg Prod.snd hput]
  show r ∈ putStore store _ _ _
  have hbeq : (r.id == (upsertProduct payload (some (formatRow row)) now uuid).id) = false := by
    rw [hmid]
    exact beq_eq_false_iff_ne.2 hne'
  exact List.mem_map.2 ⟨r, hr, by simp [hbeq]⟩

/-- Witness for claim C4 (amended) at concrete inputs: an id-less
empty payload `PUT` on the one-row store rewrites exactly the row keyed
by the path id and answers with the merged record. -/
theorem claim_c4_witness :
    (upsertProduct payload0 (some (formatRow rowA)) 5 "u").id = "a" ∧
    putProducts [rowA] "a" payload0 5 "u" =
      (⟨200, Body.record (formatRow (writeCols rowA
          (upsertProduct payload0 (some (formatRow rowA)) 5 "u")
          (payload0.name.getD rowA.name) (payload0.brand.getD rowA.brand)))⟩,
       putStore [rowA] (upsertProduct payload0 (some (formatRow rowA)) 5 "u")
         (payload0.name.getD rowA.name) (payload0.brand.getD rowA.brand)) := by
  have h := claim_c4 [rowA] "a" payload0 5 "u" rowA rfl rfl (by decide) (by decide)
  exact ⟨h.1, h.2.1⟩

/-! ### Claim C5 -/

theorem putStore_map_created (store : List Row) (product : Product) (nm br : String) :
    (putStore store product nm br).map Row.created_at = store.map Row.created_at := by
  induction store with
  | nil => rfl
  | cons a t ih =>
    show ((if a.id == product.id then writeCols a product nm br else a).created_at) ::
        (putStore t product nm br).map Row.created_at = a.created_at :: t.map Row.created_at
    rw [ih]
    have hh : (if a.id == product.id then writeCols a product nm br else a).created_at
        = a.created_at := by split <;> rfl
    rw [hh]

theorem mem_putStore (store : List Row) (product : Product) (nm br : String) (r' : Row)
    (h : r' ∈ putStore store product nm br) :
    r' ∈ store ∨ ∃ r, r ∈ store ∧ r' = writeCols r product nm br := by
  simp only [putStore, List.mem_map] at h
  obtain ⟨r, hr, heq⟩ := h
  by_cases hc : (r.id == product.id) = true
  · right
    refine ⟨r, hr, ?_⟩
    rw [← heq, if_pos hc]
  · left
    rw [← heq, if_neg hc]
    exact hr

theorem mem_insertByUpdated (r r' : Row) (l : List Row) :
    r' ∈ insertByUpdated r l ↔ r' = r ∨ r' ∈ l := by
  induction l with
  | nil => simp [insertByUpdated]
  | cons x xs ih =>
    unfold insertByUpdated
    split
    · simp [List.mem_cons]
    · simp only [List.mem_cons, ih]
      tauto

theorem mem_sortByUpdatedDesc (l : List Row) (r' : Row) :
    r' ∈ sortByUpdatedDesc l ↔ r' ∈ l := by
  induction l with
  | nil => simp [sortByUpdatedDesc]
  | cons x xs ih =>
    show r' ∈ insertByUpdated x (sortByUpdatedDesc xs) ↔ _
    rw [mem_insertByUpdated, ih]
    simp [List.mem_cons]

theorem putRun_snd_cases (store : List Row) (product : Product) :
    (putRun store product).2 = store ∨
    ∃ nm br, product.name = some nm ∧ product.brand = some br ∧
      (putRun store product).2 = putStore store product nm br := by
  unfold putRun
  split
  · rename_i nm br hn hb
    split
    · split
      · right
        exact ⟨nm, br, hn, hb, rfl⟩
      · right
        exact ⟨nm, br, hn, hb, rfl⟩
    · left
      rfl
  · left
    rfl

theorem putRun_fst_record (store : List Row) (product : Product) (rec : Product)
    (h : (putRun store product).1.body = Body.record rec) :
    ∃ nm br r0, product.name = some nm ∧ product.brand = some br ∧
      r0 ∈ putStore store product nm br ∧ rec = formatRow r0 := by
  unfold putRun at h
  split at h
  · rename_i nm br hn hb
    split at h
    · split at h
      · rename_i r0 hf
        refine ⟨nm, br, r0, hn, hb, ?_, ?_⟩
        · exact List.mem_of_find?_eq_some hf
        · injection h with h
          exact h.symm
      · simp at h
    · simp at h
  · simp at h

theorem postProducts_snd_cases (store : List Row) (payload : Payload) (now : Nat)
    (uuid : String) :
    (postProducts store payload now uuid).2 = store ∨
    ∃ nm br, (postProducts store payload now uuid).2 =
      store ++ [mkRow (upsertProduct payload none now uuid) nm br] := by
  unfold postProducts
  split
  · left; rfl
  · split
    · rename_i nm br hn hb
      split
      · left; rfl
      · right
        exact ⟨nm, br, rfl⟩
    · left; rfl

theorem postProducts_fst_record (store : List Row) (payload : Payload) (now : Nat)
    (uuid : String) (rec : Product)
    (h : (postProducts store payload now uuid).1.body = Body.record rec) :
    ∃ nm br, rec = formatRow (mkRow (upsertProduct payload none now uuid) nm br) := by
  unfold postProducts at h
  split at h
  · simp at h
  · split at h
    · rename_i nm br hn hb
      split at h
      · simp at h
      · injection h with h
        exact ⟨nm, br, h.symm⟩
    · simp at h

theorem mem_deleteProducts_snd (store : List Row) (pid : String) (r : Row)
    (h : r ∈ (deleteProducts store pid).2) : r ∈ store := by
  unfold deleteProducts at h
  split at h
  · exact List.mem_of_mem_filter h
  · exact h

/-- Claim C5: the merger keeps the existing record's `createdAt` and
stamps `createdAt = now` only at first creation; `updatedAt` is always
the merge timestamp; the update path never writes the `created_at`
column; every row added or rewritten by a create or update carries the
merge timestamp; under a monotone clock all three mutating handlers
preserve the `createdAt ≤ updatedAt` store invariant; and every record
any endpoint returns satisfies `createdAt ≤ updatedAt`. -/
theorem claim_c5 (payload : Payload) (e : Product) (existing : Option Product)
    (store : List Row) (pathId pid : String) (now : Nat) (uuid : String) :
    (upsertProduct payload (some e) now uuid).createdAt = e.createdAt ∧
    (upsertProduct payload none now uuid).createdAt = now ∧
    (upsertProduct payload existing now uuid).updatedAt = now ∧
    ((putProducts store pathId payload now uuid).2).map Row.created_at =
      store.map Row.created_at ∧
    (∀ r' ∈ (putProducts store pathId payload now uuid).2,
      r' ∈ store ∨ r'.updated_at = now) ∧
    (∀ r' ∈ (postProducts store payload now uuid).2,
      r' ∈ store ∨ (r'.created_at = now ∧ r'.updated_at = now)) ∧
    (StoreInv store → (∀ r ∈ store, r.updated_at ≤ now) →
      StoreInv (postProducts store payload now uuid).2 ∧
      StoreInv (putProducts store pathId payload now uuid).2 ∧
      StoreInv (deleteProducts store pid).2) ∧
    (StoreInv store → (∀ r ∈ store, r.updated_at ≤ now) →
      ∀ rec : Product,
        ((postProducts store payload now uuid).1.body = Body.record rec ∨
         (putProducts store pathId payload now uuid).1.body = Body.record rec ∨
         (getProduct store pid).body = Body.record rec ∨
         (∃ rs, (listProducts store).body = Body.records rs ∧ rec ∈ rs)) →
        rec.createdAt ≤ rec.updatedAt) := by
  have hput2 : (putProducts store pathId payload now uuid).2 = store ∨
      ∃ product nm br, product.updatedAt = now ∧
        (putProducts store pathId payload now uuid).2 = putStore store product nm br := by
    unfold putProducts
    split
    · left; rfl
    · rename_i row hf
      rcases putRun_snd_cases store (upsertProduct payload (some (formatRow row)) now uuid)
        with h | ⟨nm, br, _, _, h⟩
      · left; exact h
      · right; exact ⟨_, nm, br, rfl, h⟩
  have hmemput : ∀ r' ∈ (putProducts store pathId payload now uuid).2,
      r' ∈ store ∨ r'.updated_at = now := by
    intro r' hr'
    rcases hput2 with h | ⟨product, nm, br, hts, h⟩
    · rw [h] at hr'
      exact Or.inl hr'
    · rw [h] at hr'
      rcases mem_putStore store product nm br r' hr' with h2 | ⟨r, _, rfl⟩
      · exact Or.inl h2
      · right
        show product.updatedAt = now
        exact hts
  have hmempost : ∀ r' ∈ (postProducts store payload now uuid).2,
      r' ∈ store ∨ (r'.created_at = now ∧ r'.updated_at = now) := by
    intro r' hr'
    rcases postProducts_snd_cases store payload now uuid with h | ⟨nm, br, h⟩
    · rw [h] at hr'
      exact Or.inl hr'
    · rw [h] at hr'
      rcases List.mem_append.1 hr' with h2 | h2
      · exact Or.inl h2
      · right
        have : r' = mkRow (upsertProduct payload none now uuid) nm br := by simpa using h2
        subst this
        exact ⟨rfl, rfl⟩
  have hputcreated : ((putProducts store pathId payload now uuid).2).map Row.created_at =
      store.map Row.created_at := by
    rcases hput2 with h | ⟨product, nm, br, _, h⟩
    · rw [h]
    · rw [h]
      exact putStore_map_created store product nm br
  refine ⟨rfl, rfl, rfl, hputcreated, hmemput, hmempost, ?_, ?_⟩
  · intro hinv hclock
    refine ⟨?_, ?_, ?_⟩
    · intro r' hr'
      rcases hmempost r' hr' with h | ⟨h1, h2⟩
      · exact hinv r' h
      · rw [h1, h2]
    · intro r' hr'
      rcases hput2 with h | ⟨product, nm, br, hts, h⟩
      · rw [h] at hr'
        exact hinv r' hr'
      · rw [h] at hr'
        rcases mem_putStore store product nm br r' hr' with h2 | ⟨r, hr, rfl⟩
        · exact hinv r' h2
        · show r.created_at ≤ product.updatedAt
          rw [hts]
          exact le_trans (hinv r hr) (hclock r hr)
    · intro r' hr'
      exact hinv r' (mem_deleteProducts_snd store pid r' hr')
  · intro hinv hclock rec hrec
    rcases hrec with h | h | h | ⟨rs, hrs, hmem⟩
    · obtain ⟨nm, br, rfl⟩ := postProducts_fst_record store payload now uuid rec h
      show (upsertProduct payload none now uuid).createdAt ≤
        (upsertProduct payload none now uuid).updatedAt
      rfl
    · unfold putProducts at h
      split at h
      · simp at h
      · rename_i row hf
        obtain ⟨nm, br, r0, _, _, hr0, rfl⟩ :=
          putRun_fst_record store (upsertProduct payload (some (formatRow row)) now uuid) rec h
        rcases mem_putStore store _ nm br r0 hr0 with h2 | ⟨r, hr, rfl⟩
        · exact hinv r0 h2
        · show r.created_at ≤ (upsertProduct payload (some (formatRow row)) now uuid).updatedAt
          exact le_trans (hinv r hr) (hclock r hr)
    · unfold getProduct at h
      split at h
      · rename_i r hfr
        injection h with h
        subst h
        exact hinv r (List.mem_of_find?_eq_some hfr)
      · simp at h
    · injection hrs with hrs
      subst hrs
      obtain ⟨r, hr, rfl⟩ := List.mem_map.1 hmem
      exact hinv r ((mem_sortByUpdatedDesc store r).1 hr)

/-- Witness for claim C5 at concrete inputs: the store invariant is
preserved by a concrete create and a concrete update on the one-row
store with a later clock. -/
theorem claim_c5_witness :
    (upsertProduct payload0 (some productE) 5 "u").createdAt = productE.createdAt ∧
    StoreInv (postProducts [rowA] payloadNB 5 "u").2 ∧
    StoreInv (putProducts [rowA] "a" payload0 5 "u").2 ∧
    StoreInv (deleteProducts [rowA] "a").2 := by
  have h := claim_c5 payload0 productE (some productE) [rowA] "a" "a" 5 "u"
  have h2 := claim_c5 payloadNB productE (some productE) [rowA] "a" "a" 5 "u"
  have hinv : StoreInv [rowA] := by
    intro r hr
    simp only [List.mem_singleton] at hr
    subst hr
    decide
  have hclock : ∀ r ∈ [rowA], r.updated_at ≤ 5 := by
    intro r hr
    simp only [List.mem_singleton] at hr
    subst hr
    decide
  refine ⟨h.1, ?_, ?_, ?_⟩
  · exact (h2.2.2.2.2.2.2.1 hinv hclock).1
  · exact (h.2.2.2.2.2.2.1 hinv hclock).2.1
  · exact (h.2.2.2.2.2.2.1 hinv hclock).2.2

/-! ### Claim C9 -/

/-- Claim C9 (corrected), counterexample: the root endpoint does respond
200, but its body has no `message` key — the code spells the key
`mensaje`. -/
theorem claim_c9_counterexample :
    rootResp.status = 200 ∧ bodyLookup rootResp.body "message" = none :=
  ⟨rfl, rfl⟩

/-- Claim C9 (amended): the root endpoint `GET /` always responds 200
with a body containing the keys `mensaje` and `version`. -/
theorem claim_c9 :
    rootResp.status = 200 ∧
    bodyLookup rootResp.body "mensaje" = some (JVal.str "API funcionando") ∧
    bodyLookup rootResp.body "version" = some (JVal.str "1.1.0") :=
  ⟨rfl, rfl, rfl⟩

/-! ### Claim C10 -/

theorem adminToken_ne_empty (envAdmin envApi : String) : adminToken envAdmin envApi ≠ "" := by
  unfold adminToken
  split
  · assumption
  · split
    · assumption
    · decide

/-- Claim C10: a mutating request whose `Authorization` header is the
configured secret verbatim (no `Bearer ` prefix) and which carries no
`x-api-key` header passes the Access Guard, and each guarded handler
then behaves exactly as its unguarded body. -/
theorem claim_c10 (envAdmin envApi : String) (store : List Row) (payload : Payload)
    (pathId : String) (now : Nat) (uuid : String)
    (h : bearerPrefixed (adminToken envAdmin envApi) = false) :
    requireAuthOk (adminToken envAdmin envApi) "" (adminToken envAdmin envApi) = true ∧
    handlePost envAdmin envApi "" (adminToken envAdmin envApi) store payload now uuid =
      postProducts store payload now uuid ∧
    handlePut envAdmin envApi "" (adminToken envAdmin envApi) store pathId payload now uuid =
      putProducts store pathId payload now uuid ∧
    handleDelete envAdmin envApi "" (adminToken envAdmin envApi) store pathId =
      deleteProducts store pathId := by
  have hok : requireAuthOk (adminToken envAdmin envApi) "" (adminToken envAdmin envApi) = true := by
    unfold requireAuthOk guardToken stripBearer
    rw [h]
    simp [adminToken_ne_empty envAdmin envApi]
  refine ⟨hok, ?_, ?_, ?_⟩
  · unfold handlePost; rw [hok]; rfl
  · unfold handlePut; rw [hok]; rfl
  · unfold handleDelete; rw [hok]; rfl

/-- Witness for claim C10 with the secret configured as `"s3cret"`
through the environment: the raw token authenticates and the delete
handler proceeds to the store operation. -/
theorem claim_c10_witness :
    requireAuthOk (adminToken "s3cret" "") "" (adminToken "s3cret" "") = true ∧
    handleDelete "s3cret" "" "" (adminToken "s3cret" "") [rowA] "a" =
      deleteProducts [rowA] "a" := by
  have h := claim_c10 "s3cret" "" [rowA] payload0 "a" 5 "u" (by decide)
  exact ⟨h.1, h.2.2.2⟩

end Medicinas
